import Mathlib

/-!
A verification development for `src/api_trt/modules/face_model.py` of
InsightFace-REST.

The Python module orchestrates a face-analysis pipeline: a `Detector` wrapper
around an external retinaface model, and a `FaceAnalysis` class with the
static helpers `sort_boxes` and `reproject_points`, the generator
`process_faces`, and the entry point `get`.

Modelling conventions:
* numpy float64 pixel coordinates, scores and probabilities are modelled as
  exact rationals (`ℚ`); embedding vectors, whose L2 norm involves a square
  root, are modelled as lists of reals (`ℝ`);
* a numpy row (one bounding box `x1,y1,x2,y2,...`) is a `List ℚ`;
* a Python value that may be `None` is an `Option`;
* a numpy operation that raises is an `Except String` result;
* `np.argsort` (ascending) is modelled as the stable argsort: indices ordered
  by the pair (value, index) lexicographically.  This is the order numpy
  documents for its stable kinds and the one its default introsort produces on
  the sub-16-element ranges handled by insertion sort; since the (value, index)
  order is a strict total order on distinct indices, the sorted permutation is
  unique, so any correct sorting algorithm yields this result.
-/

namespace FaceModel

/-- A detected face's landmark: an ordered list of 2-D points (`[N,K,2]` rows). -/
abbrev Landmark := List (ℚ × ℚ)

/-- An aligned face crop (opaque pixel buffer contents). -/
abbrev FaceData := List (List ℚ)

/-- The `Face` named tuple of `face_model.py` (lines 17-35): every field
defaults to `None`. -/
structure Face where
  bbox : Option (List ℚ) := none
  landmark : Option Landmark := none
  det_score : Option ℚ := none
  embedding : Option (List ℝ) := none
  gender : Option ℤ := none
  age : Option ℚ := none
  embedding_norm : Option ℝ := none
  normed_embedding : Option (List ℝ) := none
  facedata : Option FaceData := none
  scale : Option ℚ := none
  num_det : Option Nat := none
  mask_prob : Option ℚ := none

instance : Inhabited Face := ⟨{}⟩

/-- Call-time state of the external retina model as seen from
`Detector.detect`: `masksAttr = none` models the attribute access
`self.retina.masks` raising (the attribute being absent), `some b` models the
attribute holding value `b`. -/
structure RetinaState where
  masksAttr : Option Bool

/-- The observable result of one `Detector.detect` call, instrumented with the
number of reads of the capability attribute `self.retina.masks` performed
during the call. -/
structure DetectOut where
  boxes : List (List ℚ)
  probs : List ℚ
  landmarks : List Landmark
  mask_probs : Option (List ℚ)
  capabilityReads : Nat

/-- The `Detector` object constructed by `Detector.__init__` (lines 42-63).
The constructor stores only the model handle `self.retina` (via `get_model`
and `retina.prepare`); it reads no capability attribute and caches no
capability flag — the structure deliberately has no `Bool` field because the
source stores none. -/
structure Detector where
  retina : Unit

/-- Model of `Detector.__init__` (face_model.py lines 42-63): builds the
wrapper and performs zero reads of `retina.masks` (the returned `Nat` counts
capability reads performed during construction; the source's `__init__` only
calls `get_model` and `self.retina.prepare`). -/
def Detector.init : Detector × Nat := (⟨()⟩, 0)

/-- Model of `Detector.detect` (face_model.py lines 65-76).  `bboxes` is the
`[N,5]` (or `[N,6]` with masks) array returned by the external model, one row
per detection.  The source computes `boxes = bboxes[:, 0:4]`,
`probs = bboxes[:, 4]`, then inside a bare `try`/`except` reads
`self.retina.masks` and, when it is `True`, takes `mask_probs = bboxes[:, 5]`;
any failure in that block (missing attribute, missing sixth column) is
swallowed and leaves `mask_probs = None`.  Exactly one capability read happens
per call. -/
def Detector.detect (retina : RetinaState) (bboxes : List (List ℚ))
    (landmarks : List Landmark) : DetectOut :=
  let boxes := bboxes.map (fun r => r.take 4)
  let probs := bboxes.map (fun r => r.getD 4 0)
  let mask_probs : Option (List ℚ) :=
    match retina.masksAttr with
    | some true =>
        if bboxes.all (fun r => 6 ≤ r.length) then
          some (bboxes.map (fun r => r.getD 5 0))
        else none
    | some false => none
    | none => none
  { boxes := boxes
    probs := probs
    landmarks := landmarks
    mask_probs := mask_probs
    capabilityReads := 1 }

/-- Area of one box row `[x1,y1,x2,y2]`:
`(boxes[:, 2] - boxes[:, 0]) * (boxes[:, 3] - boxes[:, 1])` (line 147). -/
def boxArea (b : List ℚ) : ℚ :=
  (b.getD 2 0 - b.getD 0 0) * (b.getD 3 0 - b.getD 1 0)

/-- The comparison underlying the stable ascending argsort of a value list:
index `i` precedes index `j` when its value is smaller, or the values are
equal and `i ≤ j`. -/
def idxLe (v : List ℚ) (i j : Nat) : Prop :=
  v.getD i 0 < v.getD j 0 ∨ (v.getD i 0 = v.getD j 0 ∧ i ≤ j)

instance (v : List ℚ) (i j : Nat) : Decidable (idxLe v i j) :=
  decidable_of_iff
    (v.getD i 0 < v.getD j 0 ∨ (v.getD i 0 = v.getD j 0 ∧ i ≤ j)) Iff.rfl

instance (v : List ℚ) : IsTotal Nat (idxLe v) where
  total i j := by
    unfold idxLe
    rcases lt_trichotomy (v.getD i 0) (v.getD j 0) with h | h | h
    · exact Or.inl (Or.inl h)
    · rcases Nat.le_total i j with hij | hij
      · exact Or.inl (Or.inr ⟨h, hij⟩)
      · exact Or.inr (Or.inr ⟨h.symm, hij⟩)
    · exact Or.inr (Or.inl h)

instance (v : List ℚ) : IsTrans Nat (idxLe v) where
  trans i j k hij hjk := by
    unfold idxLe at *
    rcases hij with h₁ | ⟨h₁, h₁'⟩ <;> rcases hjk with h₂ | ⟨h₂, h₂'⟩
    · exact Or.inl (h₁.trans h₂)
    · exact Or.inl (h₂ ▸ h₁)
    · exact Or.inl (h₁ ▸ h₂)
    · exact Or.inr ⟨h₁.trans h₂, h₁'.trans h₂'⟩

/-- Model of `np.argsort(values)` (ascending, line 158): the permutation of
`0, ..., n-1` ordered by `(value, index)` lexicographically (see header note
on stability). -/
def argsort (v : List ℚ) : List Nat :=
  List.insertionSort (idxLe v) (List.range v.length)

/-- `bindex = np.argsort(values)[::-1][0:max_num]` (lines 158-159): the
descending argsort truncated to the first `k` indices. -/
def bindexSel (v : List ℚ) (k : Nat) : List Nat :=
  ((argsort v).reverse).take k

/-- Model of the static method `FaceAnalysis.sort_boxes` (lines 143-168).
`shape` carries the first two components (`H`, `W`) of
`img.transformed_image.shape`.  Faithful points:
* the guard is `max_num > 0 and boxes.shape[0] > max_num`; otherwise the
  four inputs are returned unchanged;
* `img_center` and `offset_dist_squared` are computed but do not enter the
  ranking — the source sets `values = area  # some extra weight on the
  centering`, so the sort key is the area alone;
* `boxes`, `probs` and `landmarks` are fancy-indexed by `bindex`;
* `mask_probs`, when present, is indexed as `mask_probs[bindex, :]` — two
  indices applied to the 1-D array produced by `Detector.detect`
  (`bboxes[:, 5]`, shape `(N,)`), which raises
  `IndexError: too many indices for array`. -/
def sort_boxes (boxes : List (List ℚ)) (probs : List ℚ)
    (landmarks : List Landmark) (mask_probs : Option (List ℚ))
    (shape : Nat × Nat) (max_num : Int) :
    Except String (List (List ℚ) × List ℚ × List Landmark × Option (List ℚ)) :=
  if 0 < max_num ∧ max_num < (boxes.length : Int) then
    let area := boxes.map boxArea
    let img_center : Nat × Nat := (shape.1 / 2, shape.2 / 2)
    let _offset_dist_squared : List ℚ := boxes.map (fun b =>
      ((b.getD 0 0 + b.getD 2 0) / 2 - (img_center.2 : ℚ)) ^ 2 +
        ((b.getD 1 0 + b.getD 3 0) / 2 - (img_center.1 : ℚ)) ^ 2)
    let values := area
    let bindex := bindexSel values max_num.toNat
    let boxes2 := bindex.map (fun i => boxes.getD i [])
    let probs2 := bindex.map (fun i => probs.getD i 0)
    match mask_probs with
    | some _ => .error "IndexError: too many indices for array"
    | none =>
        let landmarks2 := bindex.map (fun i => landmarks.getD i [])
        .ok (boxes2, probs2, landmarks2, none)
  else
    .ok (boxes, probs, landmarks, mask_probs)

/-- Model of the static method `FaceAnalysis.reproject_points`
(lines 171-175), instantiated at a flat coordinate row (a bbox): when
`scale != 1.0` every coordinate is divided by `scale` (`dets / scale`, a new
array); otherwise the input is returned itself. -/
def reproject_points (dets : List ℚ) (scale : ℚ) : List ℚ :=
  if scale ≠ 1 then dets.map (fun x => x / scale) else dets

/-- `FaceAnalysis.reproject_points` instantiated at a landmark array
(`[K,2]`): the same source function, numpy broadcasting the division over
both coordinates of every point. -/
def reproject_landmark (lmk : Landmark) (scale : ℚ) : Landmark :=
  if scale ≠ 1 then lmk.map (fun p => (p.1 / scale, p.2 / scale)) else lmk

/-- Modelled from the spec: `to_chunks` is imported from
`modules.utils.helpers`, which is not part of the provided sources.  Spec
§4.5 (BatchChunker): splits a sequence into consecutive groups of length
`chunk_size`, the last group possibly shorter; an empty sequence yields zero
chunks; a non-positive chunk size is invalid (the pipeline never passes one —
`max_rec_batch_size` is clamped to at least 1). -/
def to_chunks : List α → Nat → List (List α)
  | [], _ => []
  | a :: l, size =>
      if size = 0 then [a :: l]
      else (a :: l).take size :: to_chunks ((a :: l).drop size) size
termination_by l _ => l.length
decreasing_by
  simp only [List.length_drop, List.length_cons]
  omega

/-- Python `int()` applied to a numeric value: truncation toward zero
(used for `gender = int(_ga[0])`, line 223). -/
def pyInt (q : ℚ) : ℤ := if 0 ≤ q then ⌊q⌋ else ⌈q⌉

/-- `numpy.linalg.norm` of a 1-D vector: the Euclidean (L2) norm. -/
noncomputable def l2norm (e : List ℝ) : ℝ :=
  Real.sqrt ((e.map (fun x => x ^ 2)).sum)

/-- The per-face merge step in the body of `process_faces` (lines 210-237):
starting from all-`None` locals, `embedding` is the model output when
embedding extraction was requested (else the `[None] * total` placeholder);
`embedding_norm = norm(embedding)` and
`normed_embedding = embedding / embedding_norm` only under
`extract_embedding`; `gender = int(_ga[0])` and `age = _ga[1]` only under
`extract_ga`; `facedata` is dropped when `return_face_data is False`; finally
all five fields are `_replace`d onto the face. -/
noncomputable def enrich (rec_model : Option FaceData → List ℝ)
    (ga_model : Option FaceData → ℚ × ℚ)
    (extract_embedding extract_ga return_face_data : Bool)
    (face : Face) : Face :=
  let crop := face.facedata
  let embedding : Option (List ℝ) :=
    if extract_embedding then some (rec_model crop) else none
  let embedding_norm : Option ℝ :=
    if extract_embedding then some (l2norm (rec_model crop)) else none
  let normed_embedding : Option (List ℝ) :=
    if extract_embedding then
      some ((rec_model crop).map (fun x => x / l2norm (rec_model crop)))
    else none
  let gender : Option ℤ :=
    if extract_ga then some (pyInt (ga_model crop).1) else none
  let age : Option ℚ :=
    if extract_ga then some (ga_model crop).2 else none
  let face := if return_face_data = false then { face with facedata := none }
    else face
  { face with
    embedding := embedding
    embedding_norm := embedding_norm
    normed_embedding := normed_embedding
    gender := gender
    age := age }

/-- One chunk iteration of `process_faces` (lines 185-237): the chunk's crops
(`crops = [e.facedata for e in chunk]`) are dispatched to the external models
— modelled per spec §6 as one output per crop, in input order — and the
results are merged back positionally, so the chunk maps elementwise through
`enrich`. -/
noncomputable def process_chunk (rec_model : Option FaceData → List ℝ)
    (ga_model : Option FaceData → ℚ × ℚ)
    (extract_embedding extract_ga return_face_data : Bool)
    (chunk : List Face) : List Face :=
  chunk.map (enrich rec_model ga_model extract_embedding extract_ga
    return_face_data)

/-- The faces produced by `FaceAnalysis.process_faces` (lines 177-237)
together with the number of embedding-model calls (`rec_model.get_embedding`,
one per chunk under `extract_embedding`) and attribute-model calls
(`ga_model.get`, one per chunk under `extract_ga`). -/
structure ProcOut where
  faces : List Face
  recCalls : Nat
  gaCalls : Nat

/-- Model of `FaceAnalysis.process_faces` (lines 177-237): chunk the faces by
`max_rec_batch_size`, process each chunk, and yield the enriched faces in
chunk order. -/
noncomputable def process_faces (rec_model : Option FaceData → List ℝ)
    (ga_model : Option FaceData → ℚ × ℚ) (max_rec_batch_size : Nat)
    (faces : List Face)
    (extract_embedding extract_ga return_face_data : Bool) : ProcOut :=
  let chunked_faces := to_chunks faces max_rec_batch_size
  { faces := (chunked_faces.map (process_chunk rec_model ga_model
      extract_embedding extract_ga return_face_data)).flatten
    recCalls := if extract_embedding then chunked_faces.length else 0
    gaCalls := if extract_ga then chunked_faces.length else 0 }

/-- The result of one `FaceAnalysis.get` run: the face records plus the
backend call counts accumulated by `process_faces`. -/
abbrev GetOut := ProcOut

/-- Model of the post-detection part of `FaceAnalysis.get` (lines 271-324),
starting from the detector output (`boxes`, `probs`, `landmarks`,
`mask_probs` — the zero-detections case being empty lists): optionally
`sort_boxes` when `limit_faces > 0`, then for each detection reproject the
bbox and landmark by `img.scale_factor`, read `det_score` and the per-face
`mask_prob` (when the array is present), crop the face from the original
image (`norm_crop`, an opaque deterministic collaborator folded over the
fixed original image), build the `Face`, and finally run `process_faces`
over the accumulated list. -/
noncomputable def get_faces (rec_model : Option FaceData → List ℝ)
    (ga_model : Option FaceData → ℚ × ℚ) (norm_crop : Landmark → FaceData)
    (max_rec_batch_size : Nat) (boxes : List (List ℚ)) (probs : List ℚ)
    (landmarks : List Landmark) (mask_probs : Option (List ℚ))
    (scale_factor : ℚ) (shape : Nat × Nat)
    (extract_embedding extract_ga return_face_data : Bool)
    (limit_faces : Int) : Except String GetOut :=
  match (if 0 < limit_faces then
          sort_boxes boxes probs landmarks mask_probs shape limit_faces
        else .ok (boxes, probs, landmarks, mask_probs)) with
  | .error e => .error e
  | .ok (boxes2, probs2, landmarks2, mask_probs2) =>
      let faces := (List.range boxes2.length).map (fun i =>
        let bbox := reproject_points (boxes2.getD i []) scale_factor
        let landmark := reproject_landmark (landmarks2.getD i []) scale_factor
        let det_score := probs2.getD i 0
        let mask_prob : Option ℚ := match mask_probs2 with
          | some mp => some (mp.getD i 0)
          | none => none
        let crop := norm_crop landmark
        { bbox := some bbox
          landmark := some landmark
          det_score := some det_score
          num_det := some i
          scale := some scale_factor
          mask_prob := mask_prob
          facedata := some crop : Face })
      .ok (process_faces rec_model ga_model max_rec_batch_size faces
        extract_embedding extract_ga return_face_data)

/-- Model of the `max_size` resolution at the top of `FaceAnalysis.get`
(lines 254-258): `try: max_size = self.det_model.retina.input_shape[2:][::-1]
except: pass`.  `inputShape = some s` models a readable `input_shape`
attribute with dimensions `s`; `none` models the read raising, in which case
the caller-supplied `max_size` is kept. -/
def resolve_max_size (inputShape : Option (List Nat))
    (max_size : Option (List Nat)) : Option (List Nat) :=
  match inputShape with
  | some s => some ((s.drop 2).reverse)
  | none => max_size

/-! ### Properties of the argsort-based selection -/

/-- The strict descending ranking key realised by
`np.argsort(values)[::-1]`: index `i` outranks index `j` when its value is
larger, or the values are equal and `i` is the later index. -/
def keyGT (v : List ℚ) (i j : Nat) : Prop :=
  v.getD j 0 < v.getD i 0 ∨ (v.getD i 0 = v.getD j 0 ∧ j < i)

lemma argsort_perm (v : List ℚ) : (argsort v).Perm (List.range v.length) :=
  List.perm_insertionSort _ _

lemma argsort_nodup (v : List ℚ) : (argsort v).Nodup :=
  ((argsort_perm v).nodup_iff).mpr (List.nodup_range _)

lemma argsort_length (v : List ℚ) : (argsort v).length = v.length := by
  simpa using (argsort_perm v).length_eq

lemma argsort_sorted (v : List ℚ) : (argsort v).Pairwise (idxLe v) :=
  List.sorted_insertionSort _ _

/-- The reversed argsort is strictly descending for the `(value, index)`
ranking. -/
lemma argsort_rev_pairwise (v : List ℚ) :
    ((argsort v).reverse).Pairwise (keyGT v) := by
  rw [List.pairwise_reverse]
  have hs : (argsort v).Pairwise (idxLe v) := argsort_sorted v
  have hn : (argsort v).Pairwise (fun i j => i ≠ j) := argsort_nodup v
  refine (hs.and hn).imp ?_
  rintro i j ⟨hle, hne⟩
  rcases hle with h | ⟨h, hij⟩
  · exact Or.inl h
  · exact Or.inr ⟨h.symm, lt_of_le_of_ne hij hne⟩

lemma bindexSel_sublist (v : List ℚ) (k : Nat) :
    (bindexSel v k).Sublist ((argsort v).reverse) :=
  List.take_sublist _ _

lemma bindexSel_nodup (v : List ℚ) (k : Nat) : (bindexSel v k).Nodup :=
  List.Nodup.sublist (bindexSel_sublist v k)
    (List.nodup_reverse.mpr (argsort_nodup v))

lemma bindexSel_length (v : List ℚ) {k : Nat} (hk : k ≤ v.length) :
    (bindexSel v k).length = k := by
  simp only [bindexSel, List.length_take, List.length_reverse, argsort_length]
  omega

lemma bindexSel_pairwise (v : List ℚ) (k : Nat) :
    (bindexSel v k).Pairwise (keyGT v) :=
  List.Pairwise.sublist (bindexSel_sublist v k) (argsort_rev_pairwise v)

lemma mem_bindexSel_lt (v : List ℚ) (k : Nat) {i : Nat}
    (h : i ∈ bindexSel v k) : i < v.length := by
  have h1 : i ∈ (argsort v).reverse := List.mem_of_mem_take h
  have h2 : i ∈ argsort v := List.mem_reverse.mp h1
  exact List.mem_range.mp ((argsort_perm v).mem_iff.mp h2)

/-- Every retained index outranks every dropped index: the selection is
exactly the top `k` of the descending `(value, index)` order. -/
lemma bindexSel_separates (v : List ℚ) (k : Nat) :
    ∀ i ∈ bindexSel v k, ∀ j, j < v.length → j ∉ bindexSel v k →
      keyGT v i j := by
  intro i hi j hj hnj
  have hsplit : ((argsort v).reverse.take k) ++ ((argsort v).reverse.drop k) =
      (argsort v).reverse := List.take_append_drop _ _
  have hp : (((argsort v).reverse.take k) ++
      ((argsort v).reverse.drop k)).Pairwise (keyGT v) := by
    rw [hsplit]; exact argsort_rev_pairwise v
  have hjmem : j ∈ (argsort v).reverse := by
    rw [List.mem_reverse]
    exact (argsort_perm v).mem_iff.mpr (List.mem_range.mpr hj)
  have hjdrop : j ∈ (argsort v).reverse.drop k := by
    rw [← hsplit] at hjmem
    rcases List.mem_append.mp hjmem with h | h
    · exact absurd h hnj
    · exact h
  exact (List.pairwise_append.mp hp).2.2 i hi j hjdrop

/-- Evaluation of `sort_boxes` on its active branch (no mask probabilities):
all three arrays are fancy-indexed by the truncated descending argsort of the
areas. -/
lemma sort_boxes_pos (boxes : List (List ℚ)) (probs : List ℚ)
    (landmarks : List Landmark) (shape : Nat × Nat) (max_num : Int)
    (h1 : 0 < max_num) (h2 : max_num < (boxes.length : Int)) :
    sort_boxes boxes probs landmarks none shape max_num =
      .ok ((bindexSel (boxes.map boxArea) max_num.toNat).map
            (fun i => boxes.getD i []),
          (bindexSel (boxes.map boxArea) max_num.toNat).map
            (fun i => probs.getD i 0),
          (bindexSel (boxes.map boxArea) max_num.toNat).map
            (fun i => landmarks.getD i []),
          none) := by
  rw [sort_boxes, if_pos ⟨h1, h2⟩]

/-- Evaluation of `sort_boxes` on its inactive branch. -/
lemma sort_boxes_noop (boxes : List (List ℚ)) (probs : List ℚ)
    (landmarks : List Landmark) (mask_probs : Option (List ℚ))
    (shape : Nat × Nat) (max_num : Int)
    (h : max_num ≤ 0 ∨ (boxes.length : Int) ≤ max_num) :
    sort_boxes boxes probs landmarks mask_probs shape max_num =
      .ok (boxes, probs, landmarks, mask_probs) := by
  rw [sort_boxes, if_neg]
  rintro ⟨h1, h2⟩
  omega

lemma getD_map_boxArea (boxes : List (List ℚ)) (i : Nat) :
    (boxes.map boxArea).getD i 0 = boxArea (boxes.getD i []) := by
  have h0 : boxArea ([] : List ℚ) = 0 := by norm_num [boxArea]
  rw [← h0, List.getD_map]

/-! ### Properties of `to_chunks` and `process_faces` -/

lemma to_chunks_flatten : ∀ (l : List α) (k : Nat), (to_chunks l k).flatten = l
  | [], _ => by simp [to_chunks]
  | a :: l, k => by
      rw [to_chunks]
      by_cases hk : k = 0
      · simp [hk]
      · rw [if_neg hk]
        simp only [List.flatten_cons]
        rw [to_chunks_flatten ((a :: l).drop k) k]
        exact List.take_append_drop _ _
termination_by l _ => l.length
decreasing_by
  simp only [List.length_drop, List.length_cons]
  omega

lemma process_faces_faces (rec_model : Option FaceData → List ℝ)
    (ga_model : Option FaceData → ℚ × ℚ) (k : Nat) (faces : List Face)
    (ee ega rfd : Bool) :
    (process_faces rec_model ga_model k faces ee ega rfd).faces =
      faces.map (enrich rec_model ga_model ee ega rfd) := by
  show ((to_chunks faces k).map (process_chunk rec_model ga_model ee ega
    rfd)).flatten = _
  rw [show process_chunk rec_model ga_model ee ega rfd =
        List.map (enrich rec_model ga_model ee ega rfd) from rfl,
    ← List.map_flatten, to_chunks_flatten]

/-! ### The L2 norm of a normalised vector -/

lemma sum_sq_nonneg (e : List ℝ) : 0 ≤ (e.map (fun x => x ^ 2)).sum := by
  refine List.sum_nonneg ?_
  intro x hx
  obtain ⟨y, _, rfl⟩ := List.mem_map.mp hx
  positivity

lemma sum_sq_map_div (e : List ℝ) (c : ℝ) :
    ((e.map (fun x => x / c)).map (fun x => x ^ 2)).sum =
      ((e.map (fun x => x ^ 2)).sum) / c ^ 2 := by
  induction e with
  | nil => simp
  | cons a t ih =>
      simp only [List.map_cons, List.sum_cons, ih, div_pow, add_div]

lemma l2norm_normalize (e : List ℝ) (h : l2norm e ≠ 0) :
    l2norm (e.map (fun x => x / l2norm e)) = 1 := by
  have hS : 0 ≤ (e.map (fun x => x ^ 2)).sum := sum_sq_nonneg e
  have hSpos : 0 < (e.map (fun x => x ^ 2)).sum := by
    rcases lt_or_eq_of_le hS with h' | h'
    · exact h'
    · exact absurd (by rw [l2norm, ← h', Real.sqrt_zero]) h
  have hsq : l2norm e ^ 2 = (e.map (fun x => x ^ 2)).sum := by
    rw [l2norm, Real.sq_sqrt hS]
  rw [l2norm, sum_sq_map_div, hsq, div_self (ne_of_gt hSpos), Real.sqrt_one]

/-! ### Claim theorems -/

/-- Claim C3 (code bug): the spec says `sort_boxes` truncates all four
parallel sequences by the same selected index set and succeeds on every
well-formed batch with `mask_probs` present; the code instead indexes the
1-D `mask_probs` array (shape `(N,)`, produced by `Detector.detect` as
`bboxes[:, 5]`) with two indices, `mask_probs[bindex, :]`, which raises
`IndexError` whenever the truncating branch runs with mask probabilities
present.  Failing input: two detections with mask probabilities and
`max_num = 1`. -/
theorem C3_mask_truncation_raises :
    sort_boxes [[0, 0, 1, 1], [0, 0, 2, 2]] [1, 2] [[(1, 1)], [(2, 2)]]
      (some [1/10, 2/10]) (4, 4) 1 =
      .error "IndexError: too many indices for array" := by
  rw [sort_boxes, if_pos (by norm_num)]

/-- Claim C9: `sort_boxes` is a no-op whenever `max_num ≤ 0` or
`N ≤ max_num`: it returns all four sequences unchanged, in their original
order. -/
theorem C9_sort_boxes_noop (boxes : List (List ℚ)) (probs : List ℚ)
    (landmarks : List Landmark) (mask_probs : Option (List ℚ))
    (shape : Nat × Nat) (max_num : Int)
    (h : max_num ≤ 0 ∨ (boxes.length : Int) ≤ max_num) :
    sort_boxes boxes probs landmarks mask_probs shape max_num =
      .ok (boxes, probs, landmarks, mask_probs) :=
  sort_boxes_noop boxes probs landmarks mask_probs shape max_num h

/-- Witness for C9: concrete no-op runs at `max_num = 0` (limit disabled)
and at `max_num = N`. -/
theorem C9_witness :
    sort_boxes [[0, 0, 1, 1]] [1] [[(1, 1)]] (some [1/10]) (4, 4) 0 =
        .ok ([[0, 0, 1, 1]], [1], [[(1, 1)]], some [1/10]) ∧
      sort_boxes [[0, 0, 1, 1]] [1] [[(1, 1)]] none (4, 4) 1 =
        .ok ([[0, 0, 1, 1]], [1], [[(1, 1)]], none) :=
  ⟨C9_sort_boxes_noop _ _ _ _ _ _ (Or.inl (by norm_num)),
    C9_sort_boxes_noop _ _ _ _ _ _ (Or.inr (by norm_num))⟩

/-- Claim C6: `reproject_points` is pure; with `scale = 1.0` it returns the
input itself (the no-op branch performs no division at all, so there is no
rounding drift), and with `scale ≠ 1.0` it returns a new array with every
coordinate divided by `scale` (the input list is never mutated — the model
is a pure function). -/
theorem C6_reproject_points_pure (dets : List ℚ) :
    reproject_points dets 1 = dets ∧
      ∀ scale : ℚ, scale ≠ 1 →
        reproject_points dets scale = dets.map (fun x => x / scale) := by
  constructor
  · rw [reproject_points]
    simp
  · intro s hs
    rw [reproject_points, if_pos hs]

/-- Witness for C6 at `dets = [2, 4]`: identity at scale 1, halving at
scale 2. -/
theorem C6_witness :
    reproject_points [2, 4] 1 = [2, 4] ∧ reproject_points [2, 4] 2 = [1, 2] := by
  refine ⟨(C6_reproject_points_pure [2, 4]).1, ?_⟩
  rw [(C6_reproject_points_pure [2, 4]).2 2 (by norm_num)]
  norm_num

/-- Claim C10: inside `get`, when the detector model exposes a readable
`input_shape` (an NCHW image tensor shape, 4 dimensions), the caller's
`max_size` is ignored — the resolved size is the same whatever `max_size`
was passed — and equals the last two dimensions of `input_shape`, reversed;
the caller's `max_size` is used only when the `input_shape` read fails. -/
theorem C10_max_size_override (s : List Nat) (m m' : Option (List Nat))
    (h : s.length = 4) :
    resolve_max_size (some s) m = resolve_max_size (some s) m' ∧
      resolve_max_size (some s) m = some [s.getD 3 0, s.getD 2 0] ∧
      resolve_max_size none m = m := by
  refine ⟨rfl, ?_, rfl⟩
  obtain ⟨a, b, c, d, rfl⟩ : ∃ a b c d, s = [a, b, c, d] := by
    rcases s with _ | ⟨a, _ | ⟨b, _ | ⟨c, _ | ⟨d, _ | ⟨x, t⟩⟩⟩⟩⟩ <;>
      simp_all
  rfl

/-- Witness for C10 at `input_shape = (1, 3, 480, 640)`: the resolved size is
`[640, 480]` whatever the caller passed, and the caller value survives only a
failing read. -/
theorem C10_witness :
    resolve_max_size (some [1, 3, 480, 640]) (some [112, 112]) =
        resolve_max_size (some [1, 3, 480, 640]) none ∧
      resolve_max_size (some [1, 3, 480, 640]) (some [112, 112]) =
        some [640, 480] ∧
      resolve_max_size none (some [112, 112]) = some [112, 112] :=
  C10_max_size_override [1, 3, 480, 640] (some [112, 112]) none rfl

/-- Claim C4 is false on the code: the capability is not queried at
construction (the constructor performs zero reads of `retina.masks` and
stores no flag), and `detect` re-probes it on every call — here one concrete
call performs one capability read, and the same call with the call-time read
failing (attribute absent) silently returns no mask probabilities while the
call with the read succeeding returns them. -/
theorem C4_counterexample :
    Detector.init.2 = 0 ∧
      (Detector.detect ⟨some true⟩ [[1, 2, 3, 4, 5, 6]] []).capabilityReads
        = 1 ∧
      (Detector.detect ⟨some true⟩ [[1, 2, 3, 4, 5, 6]] []).mask_probs
        = some [6] ∧
      (Detector.detect ⟨none⟩ [[1, 2, 3, 4, 5, 6]] []).mask_probs = none :=
  ⟨rfl, rfl, rfl, rfl⟩

/-- Claim C4 (corrected): the adapter performs the capability probe once per
`detect` call (never at construction: `__init__` performs zero reads and the
`Detector` stores no flag), inside a failure-swallowing handler, so a failing
read makes only that call fall back to returning no mask probabilities; the
boxes and scores of a call are unaffected by the probe's outcome. -/
theorem C4_amended_per_call_probe (rs rs' : RetinaState)
    (bboxes : List (List ℚ)) (lms : List Landmark)
    (h : rs.masksAttr = none) :
    (Detector.detect rs bboxes lms).capabilityReads = 1 ∧
      Detector.init.2 = 0 ∧
      (Detector.detect rs bboxes lms).mask_probs = none ∧
      (Detector.detect rs' bboxes lms).boxes =
        (Detector.detect rs bboxes lms).boxes ∧
      (Detector.detect rs' bboxes lms).probs =
        (Detector.detect rs bboxes lms).probs := by
  refine ⟨rfl, rfl, ?_, rfl, rfl⟩
  simp [Detector.detect, h]

/-- Witness for C4 (corrected) at a concrete failing-read call state. -/
theorem C4_amended_witness :
    (Detector.detect ⟨none⟩ [[1, 2, 3, 4, 5]] []).capabilityReads = 1 ∧
      Detector.init.2 = 0 ∧
      (Detector.detect ⟨none⟩ [[1, 2, 3, 4, 5]] []).mask_probs = none ∧
      (Detector.detect ⟨some true⟩ [[1, 2, 3, 4, 5]] []).boxes =
        (Detector.detect ⟨none⟩ [[1, 2, 3, 4, 5]] []).boxes ∧
      (Detector.detect ⟨some true⟩ [[1, 2, 3, 4, 5]] []).probs =
        (Detector.detect ⟨none⟩ [[1, 2, 3, 4, 5]] []).probs :=
  C4_amended_per_call_probe ⟨none⟩ ⟨some true⟩ [[1, 2, 3, 4, 5]] [] rfl

/-- Claim C1 is false on the code: with areas `1, 100, 0` and `max_num = 2`
the retained detections are the originals `#1` and `#0`, and `sort_boxes`
returns them ordered `[#1, #0]` — re-sorted by descending area — not in
their original detection order `[#0, #1]`. -/
theorem C1_counterexample :
    sort_boxes [[0, 0, 1, 1], [0, 0, 10, 10], [0, 0, 1, 0]] [1, 2, 3]
        [[(1, 1)], [(2, 2)], [(3, 3)]] none (4, 4) 2 =
      .ok ([[0, 0, 10, 10], [0, 0, 1, 1]], [2, 1], [[(2, 2)], [(1, 1)]],
        none) ∧
      ¬ ([[0, 0, 10, 10], [0, 0, 1, 1]] : List (List ℚ)) =
          [[0, 0, 1, 1], [0, 0, 10, 10]] := by
  constructor
  · rw [sort_boxes_pos _ _ _ _ _ (by norm_num) (by norm_num)]
    norm_num [bindexSel, argsort, idxLe, boxArea, List.insertionSort,
      List.orderedInsert, List.range_succ]
    exact ⟨rfl, rfl, rfl⟩
  · intro h
    simp only [List.cons.injEq] at h
    norm_num at h

/-- Claim C1 (corrected): for `0 < max_num < N` (mask probabilities absent,
otherwise the call raises — see C3), the surviving detections are NOT kept in
original detection order: `sort_boxes` returns them in the selection order of
`np.argsort(area)[::-1][:max_num]`, i.e. strictly descending in the
`(area, original index)` ranking, so the output boxes are sorted by
non-increasing area. -/
theorem C1_amended_sorted_order (boxes : List (List ℚ)) (probs : List ℚ)
    (landmarks : List Landmark) (shape : Nat × Nat) (max_num : Int)
    (h1 : 0 < max_num) (h2 : max_num < (boxes.length : Int)) :
    ∃ bindex : List Nat,
      sort_boxes boxes probs landmarks none shape max_num =
        .ok (bindex.map (fun i => boxes.getD i []),
          bindex.map (fun i => probs.getD i 0),
          bindex.map (fun i => landmarks.getD i []), none) ∧
      bindex.Pairwise (keyGT (boxes.map boxArea)) ∧
      (bindex.map (fun i => boxes.getD i [])).Pairwise
        (fun b b' => boxArea b' ≤ boxArea b) := by
  refine ⟨bindexSel (boxes.map boxArea) max_num.toNat,
    sort_boxes_pos boxes probs landmarks shape max_num h1 h2,
    bindexSel_pairwise _ _, ?_⟩
  rw [List.pairwise_map]
  refine (bindexSel_pairwise _ _).imp ?_
  intro i j hij
  simp only [keyGT] at hij
  rw [getD_map_boxArea, getD_map_boxArea] at hij
  rcases hij with hlt | ⟨heq, _⟩
  · exact le_of_lt hlt
  · exact le_of_eq heq.symm

/-- Witness for C1 (corrected) at a two-detection batch with `max_num = 1`. -/
theorem C1_amended_witness :
    ∃ bindex : List Nat,
      sort_boxes [[0, 0, 1, 1], [0, 0, 10, 10]] [1, 2] [[(1, 1)], [(2, 2)]]
          none (4, 4) 1 =
        .ok (bindex.map (fun i => [[0, 0, 1, 1], [0, 0, 10, 10]].getD i []),
          bindex.map (fun i => [1, 2].getD i 0),
          bindex.map (fun i => [[(1, 1)], [(2, 2)]].getD i []), none) ∧
      bindex.Pairwise (keyGT ([[0, 0, 1, 1], [0, 0, 10, 10]].map boxArea)) ∧
      (bindex.map (fun i => [[0, 0, 1, 1], [0, 0, 10, 10]].getD i [])).Pairwise
        (fun b b' => boxArea b' ≤ boxArea b) :=
  C1_amended_sorted_order _ _ _ _ _ (by norm_num) (by norm_num)

/-- Claim C2 is false on the code in its tie-break: two detections of equal
area (`1`) with `max_num = 1` — the code retains detection `#1` (the LATER
one), because `np.argsort(values)[::-1]` reverses a stable ascending sort,
while the claim's earlier-preferred stable tie-break would retain `#0`. -/
theorem C2_counterexample :
    sort_boxes [[0, 0, 1, 1], [5, 5, 6, 6]] [1, 2] [[(1, 1)], [(2, 2)]] none
        (4, 4) 1 =
      .ok ([[5, 5, 6, 6]], [2], [[(2, 2)]], none) ∧
      boxArea [0, 0, 1, 1] = boxArea [5, 5, 6, 6] ∧
      ¬ ([[5, 5, 6, 6]] : List (List ℚ)) = [[0, 0, 1, 1]] := by
  refine ⟨?_, by norm_num [boxArea], ?_⟩
  · rw [sort_boxes_pos _ _ _ _ _ (by norm_num) (by norm_num)]
    norm_num [bindexSel, argsort, idxLe, boxArea, List.insertionSort,
      List.orderedInsert, List.range_succ]
  · intro h
    simp only [List.cons.injEq] at h
    norm_num at h

/-- Claim C2 (corrected): for `0 < max_num < N` (mask probabilities absent),
`sort_boxes` returns exactly `max_num` entries, each drawn from the original
batch (distinct original indices, each `< N`, all three arrays indexed by the
same index list), and the retained set is exactly the `max_num` detections of
largest area `(x2-x1)*(y2-y1)` — but ties in area break in favor of the
LATER original detection order (every retained index beats every dropped one
in the (area, later-index) ranking), not the earlier. -/
theorem C2_amended_topk (boxes : List (List ℚ)) (probs : List ℚ)
    (landmarks : List Landmark) (shape : Nat × Nat) (max_num : Int)
    (h1 : 0 < max_num) (h2 : max_num < (boxes.length : Int)) :
    ∃ bindex : List Nat,
      sort_boxes boxes probs landmarks none shape max_num =
        .ok (bindex.map (fun i => boxes.getD i []),
          bindex.map (fun i => probs.getD i 0),
          bindex.map (fun i => landmarks.getD i []), none) ∧
      bindex.length = max_num.toNat ∧
      bindex.Nodup ∧
      (∀ i ∈ bindex, i < boxes.length) ∧
      (∀ i ∈ bindex, ∀ j, j < boxes.length → j ∉ bindex →
        boxArea (boxes.getD j []) < boxArea (boxes.getD i []) ∨
          (boxArea (boxes.getD i []) = boxArea (boxes.getD j []) ∧ j < i)) := by
  refine ⟨bindexSel (boxes.map boxArea) max_num.toNat,
    sort_boxes_pos boxes probs landmarks shape max_num h1 h2, ?_,
    bindexSel_nodup _ _, ?_, ?_⟩
  · apply bindexSel_length
    simp only [List.length_map]
    omega
  · intro i hi
    have := mem_bindexSel_lt _ _ hi
    simpa using this
  · intro i hi j hj hnj
    have hsep := bindexSel_separates (boxes.map boxArea) max_num.toNat i hi j
      (by simpa using hj) hnj
    simp only [keyGT] at hsep
    rw [getD_map_boxArea, getD_map_boxArea] at hsep
    exact hsep

/-- Witness for C2 (corrected) at a three-detection batch with
`max_num = 2`. -/
theorem C2_amended_witness :
    ∃ bindex : List Nat,
      sort_boxes [[0, 0, 1, 1], [0, 0, 10, 10], [0, 0, 1, 0]] [1, 2, 3]
          [[(1, 1)], [(2, 2)], [(3, 3)]] none (4, 4) 2 =
        .ok (bindex.map
            (fun i => [[0, 0, 1, 1], [0, 0, 10, 10], [0, 0, 1, 0]].getD i []),
          bindex.map (fun i => [1, 2, 3].getD i 0),
          bindex.map (fun i => [[(1, 1)], [(2, 2)], [(3, 3)]].getD i []),
          none) ∧
      bindex.length = (2 : Int).toNat ∧
      bindex.Nodup ∧
      (∀ i ∈ bindex,
        i < [[0, 0, 1, 1], [0, 0, 10, 10], [0, 0, 1, 0]].length) ∧
      (∀ i ∈ bindex, ∀ j,
        j < [[0, 0, 1, 1], [0, 0, 10, 10], [0, 0, 1, 0]].length →
        j ∉ bindex →
        boxArea ([[0, 0, 1, 1], [0, 0, 10, 10], [0, 0, 1, 0]].getD j []) <
            boxArea ([[0, 0, 1, 1], [0, 0, 10, 10], [0, 0, 1, 0]].getD i []) ∨
          (boxArea ([[0, 0, 1, 1], [0, 0, 10, 10], [0, 0, 1, 0]].getD i []) =
              boxArea ([[0, 0, 1, 1], [0, 0, 10, 10], [0, 0, 1, 0]].getD j [])
            ∧ j < i)) :=
  C2_amended_topk _ _ _ _ _ (by norm_num) (by norm_num)

/-- Claim C5: on an image with zero detections above threshold (an empty
detection batch), `get` returns an empty face sequence as a valid result —
`.ok`, not an error — and the embedding model and gender/age model are never
invoked (zero calls each), for every flag combination and face limit. -/
theorem C5_zero_detections_empty (rec_model : Option FaceData → List ℝ)
    (ga_model : Option FaceData → ℚ × ℚ) (norm_crop : Landmark → FaceData)
    (k : Nat) (mp : Option (List ℚ)) (scale : ℚ) (shape : Nat × Nat)
    (ee ega rfd : Bool) (lf : Int) :
    get_faces rec_model ga_model norm_crop k [] [] [] mp scale shape
      ee ega rfd lf = .ok ⟨[], 0, 0⟩ := by
  have hsort : (if 0 < lf then sort_boxes [] [] [] mp shape lf
      else .ok ([], [], [], mp)) = .ok ([], [], [], mp) := by
    split
    · exact sort_boxes_noop _ _ _ _ _ _ (Or.inr (by simp; omega))
    · rfl
  unfold get_faces
  rw [hsort]
  simp [process_faces, to_chunks]

/-- Witness for C5 at concrete collaborators and flags. -/
theorem C5_witness :
    get_faces (fun _ => [1]) (fun _ => (0, 0)) (fun _ => []) 1 [] [] [] none
      1 (640, 640) true true false 0 = .ok ⟨[], 0, 0⟩ :=
  C5_zero_detections_empty _ _ _ _ _ _ _ _ _ _ _

/-- Claim C7: every face record produced by `process_faces` comes from an
input face, with `embedding`, `embedding_norm` and `normed_embedding`
non-null exactly when embedding extraction was requested, `gender` and `age`
non-null exactly when attribute extraction was requested, `gender` the
`int()` coercion of the attribute model's first output and `age` its second
output passed through unmodified. -/
theorem C7_fields_iff_requested (rec_model : Option FaceData → List ℝ)
    (ga_model : Option FaceData → ℚ × ℚ) (k : Nat) (faces : List Face)
    (ee ega rfd : Bool) :
    ∀ f ∈ (process_faces rec_model ga_model k faces ee ega rfd).faces,
      ∃ f0 ∈ faces, f = enrich rec_model ga_model ee ega rfd f0 ∧
        f.embedding.isSome = ee ∧ f.embedding_norm.isSome = ee ∧
        f.normed_embedding.isSome = ee ∧
        f.gender.isSome = ega ∧ f.age.isSome = ega ∧
        (ega = true → f.gender = some (pyInt (ga_model f0.facedata).1) ∧
          f.age = some (ga_model f0.facedata).2) ∧
        (ee = true → f.embedding = some (rec_model f0.facedata)) := by
  intro f hf
  rw [process_faces_faces] at hf
  obtain ⟨f0, hf0, rfl⟩ := List.mem_map.mp hf
  refine ⟨f0, hf0, rfl, ?_, ?_, ?_, ?_, ?_, ?_, ?_⟩ <;>
    cases ee <;> cases ega <;> simp [enrich]

/-- The embedding collaborator used by the C7 witness. -/
def rcW : Option FaceData → List ℝ := fun _ => [1]

/-- The attribute collaborator used by the C7 witness. -/
def gcW : Option FaceData → ℚ × ℚ := fun _ => (2, 30)

/-- The single face record produced in the C7 witness run. -/
noncomputable def fW : Face := enrich rcW gcW true true false {}

/-- Witness for C7: one face, both extractions requested. -/
theorem C7_witness :
    ∃ f0 ∈ ([{}] : List Face), fW = enrich rcW gcW true true false f0 ∧
      fW.embedding.isSome = true ∧ fW.embedding_norm.isSome = true ∧
      fW.normed_embedding.isSome = true ∧
      fW.gender.isSome = true ∧ fW.age.isSome = true ∧
      (true = true → fW.gender = some (pyInt (gcW f0.facedata).1) ∧
        fW.age = some (gcW f0.facedata).2) ∧
      (true = true → fW.embedding = some (rcW f0.facedata)) :=
  C7_fields_iff_requested rcW gcW 1 [{}] true true false fW
    (by rw [process_faces_faces]; simp [fW])

/-- Claim C8: every face record produced with `extract_embedding = true`
carries `embedding_norm = ‖embedding‖₂` and
`normed_embedding = embedding / embedding_norm` (a total operation — a zero
norm yields a value, never an error), and whenever `embedding_norm ≠ 0` the
normed embedding has Euclidean norm exactly 1. -/
theorem C8_normed_embedding_unit (rec_model : Option FaceData → List ℝ)
    (ga_model : Option FaceData → ℚ × ℚ) (k : Nat) (faces : List Face)
    (ega rfd : Bool) :
    ∀ f ∈ (process_faces rec_model ga_model k faces true ega rfd).faces,
      ∃ e : List ℝ, f.embedding = some e ∧
        f.embedding_norm = some (l2norm e) ∧
        f.normed_embedding = some (e.map (fun x => x / l2norm e)) ∧
        (l2norm e ≠ 0 → l2norm (e.map (fun x => x / l2norm e)) = 1) := by
  intro f hf
  rw [process_faces_faces] at hf
  obtain ⟨f0, hf0, rfl⟩ := List.mem_map.mp hf
  exact ⟨rec_model f0.facedata, by simp [enrich], by simp [enrich],
    by simp [enrich], fun h => l2norm_normalize _ h⟩

/-- Witness for C8: the embedding `[3, 4]` has norm 5, and its normalisation
has norm 1. -/
theorem C8_witness :
    l2norm ([(3 : ℝ), 4].map (fun x => x / l2norm [(3 : ℝ), 4])) = 1 := by
  have h5 : l2norm [(3 : ℝ), 4] = 5 := by
    rw [l2norm]
    norm_num
    rw [show (25 : ℝ) = 5 ^ 2 by norm_num]
    exact Real.sqrt_sq (by norm_num)
  obtain ⟨e, he, _hn, _hne, h1⟩ :=
    C8_normed_embedding_unit (fun _ => [(3 : ℝ), 4]) (fun _ => (0, 0)) 1 [{}]
      false false
      (enrich (fun _ => [(3 : ℝ), 4]) (fun _ => (0, 0)) true false false {})
      (by rw [process_faces_faces]; simp)
  have he' : e = [(3 : ℝ), 4] := by
    simp [enrich] at he
    exact he.symm
  subst he'
  exact h1 (by rw [h5]; norm_num)

end FaceModel
